import Mathlib

set_option autoImplicit false

/-!
Shallow embedding of the Regina group-management client-side cache layer
(`src/lib/cache-manager.ts`) and of the notification context
(`src/contexts/NotificationContext.tsx`), with theorems settling the
specification claims about them.

Modelling conventions:
* browser `localStorage` is an association list from full string keys to
  stored items; `JSON.parse` of a stored string either throws (a `corrupt`
  item) or yields the cache-entry envelope;
* `Date.now()` is passed explicitly as an `Int` (epoch milliseconds);
* a `try { ... } catch { ... }` block is embedded as an `Except`-valued
  body plus a total wrapper applying the catch handler;
* `localStorage.setItem` may throw (quota exceeded); this is the `writeOk`
  parameter. `getItem` / `removeItem` are total.
-/

namespace Regina

/-- CacheEntry envelope from cache-manager.ts: `{ data, timestamp, version, expiresAt }`.
The payload `data` is kept in its serialized form as a `String`. -/
structure CacheEntry where
  data : String
  timestamp : Int
  version : String
  expiresAt : Int
deriving Repr, DecidableEq

/-- A raw string stored in localStorage, as seen through `JSON.parse`:
either a well-formed serialized `CacheEntry`, or a corrupt string on which
`JSON.parse` throws. -/
inductive StoredItem where
  | corrupt (raw : String)
  | entry (e : CacheEntry)
deriving Repr, DecidableEq

/-- `CustomEvent`s dispatched on `window` by the cache manager. -/
inductive BroadcastEvent where
  | domainDataChanged
deriving Repr, DecidableEq

/-- The localStorage contents: full string key to stored item. -/
abbrev Storage := List (String × StoredItem)

/-- `localStorage.getItem`: first binding of the key, if any. -/
def lookupKV : Storage → String → Option StoredItem
  | [], _ => none
  | (k', v) :: rest, k => if k' = k then some v else lookupKV rest k

/-- `localStorage.removeItem`. -/
def removeKV : Storage → String → Storage
  | [], _ => []
  | (k', v) :: rest, k =>
      if k' = k then removeKV rest k else (k', v) :: removeKV rest k

/-- `localStorage.setItem`: bind the key to the item, replacing any previous binding. -/
def setKV (l : Storage) (k : String) (v : StoredItem) : Storage :=
  (k, v) :: removeKV l k

/-- Browser-global state seen by the cache manager: localStorage plus the
ordered list of events dispatched on `window`. -/
structure St where
  storage : Storage
  events : List BroadcastEvent
deriving Repr, DecidableEq

/-- CacheConfig: `{ duration (ms), version }`. -/
structure CacheConfig where
  duration : Int
  version : String
deriving Repr, DecidableEq

/-- The static `CACHE_CONFIGS` record from cache-manager.ts. -/
def CACHE_CONFIGS : String → Option CacheConfig := fun key =>
  if key = "projects" then some ⟨5 * 60 * 1000, "1.0"⟩
  else if key = "dashboard" then some ⟨5 * 60 * 1000, "1.0"⟩
  else if key = "profile" then some ⟨45 * 60 * 1000, "1.1"⟩
  else if key = "adminSettings" then some ⟨30 * 60 * 1000, "1.0"⟩
  else if key = "notifications" then some ⟨2 * 60 * 1000, "1.0"⟩
  else if key = "domainExpiry" then some ⟨1 * 60 * 1000, "1.0"⟩
  else none

/-- The fallback `{ duration: 5 * 60 * 1000, version: '1.0' }` used by
`set` and `shouldRefresh` when `CACHE_CONFIGS[key]` is undefined. -/
def defaultConfig : CacheConfig := ⟨5 * 60 * 1000, "1.0"⟩

/-- `CACHE_CONFIGS[key] || default`. -/
def configOrDefault (key : String) : CacheConfig :=
  (CACHE_CONFIGS key).getD defaultConfig

/-- The storage key namespace `this.prefix`. -/
def pfx : String := "regina_cache_"

/-- `invalidate(key)`: unconditional `removeItem(prefix + key)` (its
try/catch is trivial since `removeItem` is total). -/
def cm_invalidate (st : St) (key : String) : St :=
  { st with storage := removeKV st.storage (pfx ++ key) }

/-- One pass of `clearExpired` over the storage: entries under the prefix
that are corrupt or whose `expiresAt` lies strictly in the past are removed. -/
def clearExpiredStorage : Storage → Int → Storage
  | [], _ => []
  | (k, v) :: rest, now =>
      if k.startsWith pfx then
        match v with
        | .corrupt _ => clearExpiredStorage rest now
        | .entry e =>
            if now > e.expiresAt then clearExpiredStorage rest now
            else (k, v) :: clearExpiredStorage rest now
      else (k, v) :: clearExpiredStorage rest now

/-- `clearExpired()`. -/
def clearExpired (st : St) (now : Int) : St :=
  { st with storage := clearExpiredStorage st.storage now }

/-- The `try` block of `set(key, data)`: build the envelope and attempt
`localStorage.setItem(prefix + key, ...)`, which throws when `writeOk` is false. -/
def cm_setBody (writeOk : Bool) (st : St) (key data : String) (now : Int) :
    Except Unit St :=
  let config := configOrDefault key
  let entry : CacheEntry := ⟨data, now, config.version, now + config.duration⟩
  if writeOk then
    Except.ok { st with storage := setKV st.storage (pfx ++ key) (.entry entry) }
  else Except.error ()

/-- `set(key, data)` with its catch handler: on a write failure it logs and
calls `clearExpired()`; nothing is re-thrown. -/
def cm_setE (writeOk : Bool) (st : St) (key data : String) (now : Int) :
    Except Unit St :=
  match cm_setBody writeOk st key data now with
  | .ok s => .ok s
  | .error _ => .ok (clearExpired st now)

/-- The state after `set(key, data)` (total, since the catch handler absorbs
the only throwing operation). -/
def cm_set (writeOk : Bool) (st : St) (key data : String) (now : Int) : St :=
  match cm_setE writeOk st key data now with
  | .ok s => s
  | .error _ => st

/-- The `try` block of `get(key)`: read, `JSON.parse` (throws on a corrupt
item), then the expiry check `Date.now() > entry.expiresAt` and the guarded
version check `if (config && entry.version !== config.version)`. -/
def cm_getBody (st : St) (key : String) (now : Int) :
    Except Unit (Option String × St) :=
  match lookupKV st.storage (pfx ++ key) with
  | none => .ok (none, st)
  | some (.corrupt _) => .error ()
  | some (.entry e) =>
      if now > e.expiresAt then .ok (none, cm_invalidate st key)
      else
        match CACHE_CONFIGS key with
        | some config =>
            if e.version ≠ config.version then .ok (none, cm_invalidate st key)
            else .ok (some e.data, st)
        | none => .ok (some e.data, st)

/-- `get(key)` with its catch handler: on any thrown error it logs, calls
`invalidate(key)` and returns `null`. -/
def cm_getE (st : St) (key : String) (now : Int) :
    Except Unit (Option String × St) :=
  match cm_getBody st key now with
  | .ok r => .ok r
  | .error _ => .ok (none, cm_invalidate st key)

/-- The value/state pair produced by `get(key)`. -/
def cm_get (st : St) (key : String) (now : Int) : Option String × St :=
  match cm_getE st key now with
  | .ok r => r
  | .error _ => (none, st)

/-- `getAge(key)`: `Date.now() - entry.timestamp`, `null` when the item is
missing or `JSON.parse` throws (the catch returns `null`). -/
def getAge (st : St) (key : String) (now : Int) : Option Int :=
  match lookupKV st.storage (pfx ++ key) with
  | none => none
  | some (.corrupt _) => none
  | some (.entry e) => some (now - e.timestamp)

/-- `shouldRefresh(key)`: `age > config.duration / 2` with the
`CACHE_CONFIGS[key] || default` fallback; `true` when `getAge` is `null`.
All configured durations are even, so integer division by 2 agrees with the
source's numeric division. -/
def shouldRefresh (st : St) (key : String) (now : Int) : Bool :=
  match getAge st key now with
  | none => true
  | some age => decide (age > (configOrDefault key).duration / 2)

/-- `invalidateDomainCaches()`: remove the fixed set of seven keys, then
dispatch one `domainDataChanged` CustomEvent on `window` (the embedding is
of the browser runtime, where `window` is defined). -/
def invalidateDomainCaches (st : St) : St :=
  let st1 := cm_invalidate st "projects"
  let st2 := cm_invalidate st1 "dashboard"
  let st3 := cm_invalidate st2 "notifications"
  let st4 := cm_invalidate st3 "domainExpiry"
  let st5 := cm_invalidate st4 "notification-domain-expiry"
  let st6 := cm_invalidate st5 "notification-counts"
  let st7 := cm_invalidate st6 "message-counts"
  { st7 with events := st7.events ++ [BroadcastEvent.domainDataChanged] }

/-- `invalidateOnDataChange(tableName, operation)`: the static switch on the
table name. -/
def invalidateOnDataChange (st : St) (tableName operation : String) : St :=
  if tableName = "domains" then invalidateDomainCaches st
  else if tableName = "projects" then
    cm_invalidate (cm_invalidate st "projects") "dashboard"
  else if tableName = "notifications" then
    cm_invalidate (cm_invalidate st "notifications") "domainExpiry"
  else cm_invalidate (cm_invalidate st "projects") "dashboard"

/-! Association-list lemmas. -/

theorem lookupKV_removeKV_self (l : Storage) (k : String) :
    lookupKV (removeKV l k) k = none := by
  induction l with
  | nil => rfl
  | cons p rest ih =>
      obtain ⟨k', v⟩ := p
      by_cases h : k' = k
      · simp [removeKV, h, ih]
      · simp [removeKV, lookupKV, h, ih]

theorem lookupKV_removeKV_ne (l : Storage) (k k' : String) (h : k' ≠ k) :
    lookupKV (removeKV l k) k' = lookupKV l k' := by
  induction l with
  | nil => rfl
  | cons p rest ih =>
      obtain ⟨k0, v⟩ := p
      by_cases h0 : k0 = k
      · have h2 : k0 ≠ k' := by rw [h0]; exact Ne.symm h
        simp [removeKV, lookupKV, h0, h2, Ne.symm h, ih]
      · simp [removeKV, lookupKV, h0, ih]

theorem lookupKV_setKV_self (l : Storage) (k : String) (v : StoredItem) :
    lookupKV (setKV l k v) k = some v := by
  simp [setKV, lookupKV]

theorem lookupKV_setKV_ne (l : Storage) (k k' : String) (v : StoredItem)
    (h : k' ≠ k) :
    lookupKV (setKV l k v) k' = lookupKV l k' := by
  simp [setKV, lookupKV, Ne.symm h, lookupKV_removeKV_ne l k k' h]

/-! Behaviour of `get` by cases on the stored item. -/

theorem cm_get_of_lookup_none (st : St) (key : String) (now : Int)
    (h : lookupKV st.storage (pfx ++ key) = none) :
    cm_get st key now = (none, st) := by
  simp [cm_get, cm_getE, cm_getBody, h]

theorem cm_get_of_lookup_corrupt (st : St) (key raw : String) (now : Int)
    (h : lookupKV st.storage (pfx ++ key) = some (.corrupt raw)) :
    cm_getBody st key now = .error () ∧
    cm_get st key now = (none, cm_invalidate st key) := by
  constructor <;> simp [cm_get, cm_getE, cm_getBody, h]

theorem cm_get_of_entry_valid (st : St) (key : String) (now : Int)
    (e : CacheEntry)
    (h : lookupKV st.storage (pfx ++ key) = some (.entry e))
    (hexp : now ≤ e.expiresAt)
    (hver : ∀ c, CACHE_CONFIGS key = some c → e.version = c.version) :
    cm_get st key now = (some e.data, st) := by
  have hlt : ¬ now > e.expiresAt := not_lt.mpr hexp
  cases hc : CACHE_CONFIGS key with
  | none => simp [cm_get, cm_getE, cm_getBody, h, hlt, hc]
  | some c =>
      have hv : ¬ e.version ≠ c.version := by simp [hver c hc]
      simp [cm_get, cm_getE, cm_getBody, h, hlt, hc, hv]

theorem cm_get_of_entry_expired (st : St) (key : String) (now : Int)
    (e : CacheEntry)
    (h : lookupKV st.storage (pfx ++ key) = some (.entry e))
    (hexp : now > e.expiresAt) :
    cm_get st key now = (none, cm_invalidate st key) := by
  simp [cm_get, cm_getE, cm_getBody, h, hexp]

theorem cm_get_of_entry_version_mismatch (st : St) (key : String) (now : Int)
    (e : CacheEntry) (c : CacheConfig)
    (h : lookupKV st.storage (pfx ++ key) = some (.entry e))
    (hc : CACHE_CONFIGS key = some c)
    (hv : e.version ≠ c.version)
    (hexp : now ≤ e.expiresAt) :
    cm_get st key now = (none, cm_invalidate st key) := by
  have hlt : ¬ now > e.expiresAt := not_lt.mpr hexp
  simp [cm_get, cm_getE, cm_getBody, h, hlt, hc, hv]

/-- A successful `set` stores the envelope built from the configured (or
default) version and duration. -/
theorem cm_set_true (st : St) (key data : String) (now : Int) :
    cm_set true st key data now =
      { st with
        storage := setKV st.storage (pfx ++ key)
          (.entry ⟨data, now, (configOrDefault key).version,
            now + (configOrDefault key).duration⟩) } := rfl

theorem lookupKV_removeKV (l : Storage) (k k' : String) :
    lookupKV (removeKV l k) k' = if k' = k then none else lookupKV l k' := by
  by_cases h : k' = k
  · subst h; simp [lookupKV_removeKV_self]
  · simp [h, lookupKV_removeKV_ne l k k' h]

end Regina

namespace Regina.Notif

/-!
Embedding of the parts of `NotificationContext.tsx` the claims are about:
the `isSaving` flag, the real-time subscription handlers for the `domains`
table and for comment notifications, and `markCommentAsRead`.

Each handler call runs at a point in time `now` (epoch ms). A handler that
reaches its `setTimeout` arms a one-second timer; the cleanup closure the
handler returns is discarded by the subscription API, and the effect
cleanup only runs on unmount/dependency change, so within one mounted
subscription nothing cancels an armed timer: every armed timer eventually
fires and performs its reload.
-/

/-- The data slices reloaded by the two debounced handlers. -/
inductive Slice where
  | domainExpiry
  | commentNotifications
deriving Repr, DecidableEq

/-- The fields of a `postgres_changes` payload consulted by the comment
handler: `payload.new?.type`, `payload.old?.type`, `payload.eventType`. -/
structure Payload where
  newType : Option String
  oldType : Option String
  eventType : String
deriving Repr, DecidableEq

/-- Handler-visible state: the `isSaving` flag, the armed (uncancelled)
timers, and the reloads already performed, each tagged with its time. -/
structure NC where
  isSaving : Bool
  pending : List (Int × Slice)
  fired : List (Int × Slice)
deriving Repr, DecidableEq

/-- `markSaveStart()`. -/
def markSaveStart (st : NC) : NC := { st with isSaving := true }

/-- `markSaveEnd()`. -/
def markSaveEnd (st : NC) : NC := { st with isSaving := false }

/-- The `domains`-table subscription handler: drop the event while saving,
otherwise arm a 1000 ms timer for `loadDomainExpiryData` (the returned
cleanup closure is discarded, so no previously armed timer is cancelled). -/
def handleDomainChange (st : NC) (now : Int) : NC :=
  if st.isSaving then st
  else { st with pending := st.pending ++ [(now + 1000, Slice.domainExpiry)] }

/-- The guard `payload.new?.type === 'comment' || payload.old?.type ===
'comment' || payload.eventType === 'INSERT'`. -/
def commentRelated (p : Payload) : Prop :=
  p.newType = some "comment" ∨ p.oldType = some "comment" ∨
    p.eventType = "INSERT"

instance (p : Payload) : Decidable (commentRelated p) := by
  unfold commentRelated; infer_instance

/-- The comment-notification subscription handler: drop the event while
saving; otherwise, when the payload is comment-related or an INSERT, arm a
1000 ms timer for `loadCommentNotifications`. -/
def handleCommentChange (st : NC) (p : Payload) (now : Int) : NC :=
  if st.isSaving then st
  else if commentRelated p then
    { st with pending := st.pending ++ [(now + 1000, Slice.commentNotifications)] }
  else st

/-- Let every armed timer fire: nothing in the subscription cancels them. -/
def settle (st : NC) : NC :=
  { st with pending := [], fired := st.fired ++ st.pending }

/-- Number of reloads performed for a given slice. -/
def reloadCount (st : NC) (s : Slice) : Nat :=
  (st.fired.filter (fun p => decide (p.2 = s))).length

/-- The local `CommentNotification` interface (note: it has no `is_read`
field). -/
structure CommentNotification where
  id : String
  text : String
  user : String
  userId : String
  projectId : String
  projectName : String
  timestamp : String
deriving Repr, DecidableEq

/-- Context state touched by `markCommentAsRead`: the comment list, the
unread counter, and the cache keys invalidated via the cache manager. -/
structure NotifState where
  commentNotifications : List CommentNotification
  unreadCommentCount : Int
  invalidated : List String
deriving Repr, DecidableEq

/-- The spread `{ ...comment }`: a shallow copy rebuilding every field. -/
def shallowCopy (c : CommentNotification) : CommentNotification :=
  ⟨c.id, c.text, c.user, c.userId, c.projectId, c.projectName, c.timestamp⟩

/-- `markCommentAsRead(commentId)`: no-op without a user; on a backend
error the catch logs and leaves local state untouched; on success the
matching element is replaced by its shallow copy, the unread counter is set
to `Math.max(0, prev - 1)`, and the comment-notifications cache key is
invalidated. -/
def markCommentAsRead (st : NotifState) (commentId : String)
    (hasUser : Bool) (backendError : Bool) : NotifState :=
  if !hasUser then st
  else if backendError then st
  else
    ⟨st.commentNotifications.map
        (fun c => if c.id = commentId then shallowCopy c else c),
      max 0 (st.unreadCommentCount - 1),
      st.invalidated ++ ["comment-notifications"]⟩

theorem shallowCopy_eq (c : CommentNotification) : shallowCopy c = c := rfl

/-- React wiring of the subscription effect: the handlers reference
`isSaving` from the closure of the render in which the effect last ran, and
the effect's dependency array `[user, loadDomainExpiryData,
loadNotificationAndMessageCounts, loadCommentNotifications]` omits
`isSaving` (each loader's own dependency array is `[user]`), so a change of
`isSaving` never re-runs the effect: the mounted handlers keep the value
captured at subscription setup. `RNC` therefore carries both the live
`isSaving` state and the captured value the handler closures actually
read. -/
structure RNC where
  isSaving : Bool
  capturedIsSaving : Bool
  pending : List (Int × Slice)
  fired : List (Int × Slice)
deriving Repr, DecidableEq

/-- The subscription effect runs and the handler closures capture the
current `isSaving`; with `useState(false)` this captures `false` at
mount. -/
def setupSubscriptions (st : RNC) : RNC :=
  { st with capturedIsSaving := st.isSaving }

/-- `markSaveStart()` under the React wiring: it updates the live state
only; the subscription effect does not re-run, so the captured value the
handlers read is unchanged. -/
def rMarkSaveStart (st : RNC) : RNC := { st with isSaving := true }

/-- `markSaveEnd()` under the React wiring. -/
def rMarkSaveEnd (st : RNC) : RNC := { st with isSaving := false }

/-- The mounted domains handler: the same handler body as
`handleDomainChange`, but the `isSaving` its guard reads is the captured
one, not the live one. -/
def rHandleDomainChange (st : RNC) (now : Int) : RNC :=
  let nc := handleDomainChange ⟨st.capturedIsSaving, st.pending, st.fired⟩ now
  { st with pending := nc.pending, fired := nc.fired }

/-- The mounted comment-notification handler, reading the captured
`isSaving`. -/
def rHandleCommentChange (st : RNC) (p : Payload) (now : Int) : RNC :=
  let nc := handleCommentChange ⟨st.capturedIsSaving, st.pending, st.fired⟩ p now
  { st with pending := nc.pending, fired := nc.fired }

/-- Forget the captured flag, to reuse `settle` and `reloadCount`. -/
def toNC (st : RNC) : NC := ⟨st.isSaving, st.pending, st.fired⟩

end Regina.Notif


namespace Regina

/-! Claim theorems. -/

/-- C1 (counterexample to the claim as stated): for the configured key
`projects`, `set` at `t0 = 0` stores `expiresAt = 300000`; at
`now = 300000`, although `now ≥ expiresAt`, `get` still returns the stored
value — the code treats the entry as expired only when `now > expiresAt`
strictly. -/
theorem C1_counterexample :
    lookupKV (cm_set true ⟨[], []⟩ "projects" "d" 0).storage (pfx ++ "projects")
      = some (.entry ⟨"d", 0, "1.0", 300000⟩) ∧
    (300000 : Int) ≥ 300000 ∧
    (cm_get (cm_set true ⟨[], []⟩ "projects" "d" 0) "projects" 300000).1
      = some "d" := by decide

/-- C1 (amended): after `set(k, v)` at `t0`, `get(k)` returns `v` for as
long as `now ≤ t0 + duration(k)` (the configured or default duration), the
entry still being valid at `now = expiresAt` exactly; once
`now > expiresAt` strictly, `get(k)` returns `null` and removes the entry;
and for a key with a cache configuration, a stored entry whose version
differs from the configured version is removed and `null` returned. -/
theorem C1_set_then_get (st : St) (k v : String) (t0 now : Int) :
    (now ≤ t0 + (configOrDefault k).duration →
      cm_get (cm_set true st k v t0) k now = (some v, cm_set true st k v t0)) ∧
    (now > t0 + (configOrDefault k).duration →
      cm_get (cm_set true st k v t0) k now
        = (none, cm_invalidate (cm_set true st k v t0) k)) ∧
    (∀ e : CacheEntry, ∀ c : CacheConfig,
      lookupKV st.storage (pfx ++ k) = some (.entry e) →
      CACHE_CONFIGS k = some c → e.version ≠ c.version → now ≤ e.expiresAt →
      cm_get st k now = (none, cm_invalidate st k)) := by
  have hl : lookupKV (cm_set true st k v t0).storage (pfx ++ k)
      = some (.entry ⟨v, t0, (configOrDefault k).version,
          t0 + (configOrDefault k).duration⟩) := by
    rw [cm_set_true]
    exact lookupKV_setKV_self _ _ _
  refine ⟨?_, ?_, ?_⟩
  · intro hle
    exact cm_get_of_entry_valid _ _ _ _ hl hle
      (fun c hc => by simp [configOrDefault, hc])
  · intro hgt
    exact cm_get_of_entry_expired _ _ _ _ hl hgt
  · intro e c h hc hv hexp
    exact cm_get_of_entry_version_mismatch st k now e c h hc hv hexp

/-- Witness for C1: a fresh `projects` entry is served at `now = 100`,
removed at `now = 300001`, and a stored entry with version `0.9` against
the configured `1.0` is removed when read unexpired. -/
theorem C1_set_then_get_witness :
    cm_get (cm_set true ⟨[], []⟩ "projects" "d" 0) "projects" 100
      = (some "d", cm_set true ⟨[], []⟩ "projects" "d" 0) ∧
    cm_get (cm_set true ⟨[], []⟩ "projects" "d" 0) "projects" 300001
      = (none, cm_invalidate (cm_set true ⟨[], []⟩ "projects" "d" 0) "projects") ∧
    cm_get ⟨[("regina_cache_projects", .entry ⟨"d", 0, "0.9", 300000⟩)], []⟩
        "projects" 0
      = (none, cm_invalidate
          ⟨[("regina_cache_projects", .entry ⟨"d", 0, "0.9", 300000⟩)], []⟩
          "projects") :=
  ⟨(C1_set_then_get ⟨[], []⟩ "projects" "d" 0 100).1 (by decide),
   (C1_set_then_get ⟨[], []⟩ "projects" "d" 0 300001).2.1 (by decide),
   (C1_set_then_get
      ⟨[("regina_cache_projects", .entry ⟨"d", 0, "0.9", 300000⟩)], []⟩
      "projects" "d" 0 0).2.2
    ⟨"d", 0, "0.9", 300000⟩ ⟨300000, "1.0"⟩
    (by decide) (by decide) (by decide) (by decide)⟩

end Regina

namespace Regina

/-- C2: with `isSaving = false`, three `domains` change events at
t = 0 ms, 300 ms and 600 ms (all within one second) each arm their own
1000 ms timer; the cleanup closures returned by the handler are discarded,
so no timer is cancelled and three reloads of the domain-expiry slice are
performed — not the single coalesced reload the specification requires. -/
theorem C2_burst_triggers_three_reloads :
    Notif.reloadCount
      (Notif.settle
        (Notif.handleDomainChange
          (Notif.handleDomainChange
            (Notif.handleDomainChange ⟨false, [], []⟩ 0) 300) 600))
      Notif.Slice.domainExpiry = 3 := by decide

/-- C3: `invalidateOnDataChange('domains', op)` removes (at least) the
`domainExpiry`, `projects`, `dashboard`, `notification-counts` and
`notification-domain-expiry` cache entries, and dispatches exactly one
`domainDataChanged` broadcast event. -/
theorem C3_domains_invalidation (st : St) (op : String) :
    lookupKV (invalidateOnDataChange st "domains" op).storage
      (pfx ++ "domainExpiry") = none ∧
    lookupKV (invalidateOnDataChange st "domains" op).storage
      (pfx ++ "projects") = none ∧
    lookupKV (invalidateOnDataChange st "domains" op).storage
      (pfx ++ "dashboard") = none ∧
    lookupKV (invalidateOnDataChange st "domains" op).storage
      (pfx ++ "notification-counts") = none ∧
    lookupKV (invalidateOnDataChange st "domains" op).storage
      (pfx ++ "notification-domain-expiry") = none ∧
    (invalidateOnDataChange st "domains" op).events
      = st.events ++ [BroadcastEvent.domainDataChanged] := by
  have hroute : invalidateOnDataChange st "domains" op
      = invalidateDomainCaches st := by
    simp [invalidateOnDataChange]
  rw [hroute]
  refine ⟨?_, ?_, ?_, ?_, ?_, rfl⟩ <;>
    simp [invalidateDomainCaches, cm_invalidate, lookupKV_removeKV, pfx]

end Regina

namespace Regina

/-- C4 (counterexample to the claim as stated): `foo` has no entry in
`CACHE_CONFIGS`; a stored entry under `foo` carries version `0.9`, which
differs from the default version `1.0`, yet an unexpired `get` returns its
data and leaves the entry in place — the version check is skipped entirely
for unconfigured keys (`if (config && ...)` with `config` undefined). -/
theorem C4_counterexample :
    CACHE_CONFIGS "foo" = none ∧
    defaultConfig.version ≠ "0.9" ∧
    cm_get ⟨[("regina_cache_foo", .entry ⟨"d", 0, "0.9", 300000⟩)], []⟩ "foo" 0
      = (some "d",
         ⟨[("regina_cache_foo", .entry ⟨"d", 0, "0.9", 300000⟩)], []⟩) := by
  decide

/-- C4 (amended): for a key `k` with no entry in the static cache
configuration, `set(k, v)` stores the default version and a
default-duration expiry; but `get(k)` performs no version check for such a
key: any unexpired stored entry is returned unchanged, whatever its
version. -/
theorem C4_unconfigured_default (st : St) (k v : String) (t0 now : Int)
    (e : CacheEntry) (hk : CACHE_CONFIGS k = none) :
    lookupKV (cm_set true st k v t0).storage (pfx ++ k)
      = some (.entry ⟨v, t0, defaultConfig.version,
          t0 + defaultConfig.duration⟩) ∧
    (lookupKV st.storage (pfx ++ k) = some (.entry e) → now ≤ e.expiresAt →
      cm_get st k now = (some e.data, st)) := by
  constructor
  · rw [cm_set_true, lookupKV_setKV_self]
    simp [configOrDefault, hk]
  · intro h hexp
    exact cm_get_of_entry_valid st k now e h hexp
      (fun c hc => by rw [hk] at hc; cases hc)

/-- Witness for C4 at the unconfigured key `foo`: `set` stores the default
envelope, and a version-`0.9` entry is still served unexpired. -/
theorem C4_unconfigured_default_witness :
    lookupKV
      (cm_set true ⟨[("regina_cache_foo", .entry ⟨"d", 0, "0.9", 300000⟩)], []⟩
        "foo" "x" 5).storage (pfx ++ "foo")
      = some (.entry ⟨"x", 5, defaultConfig.version,
          5 + defaultConfig.duration⟩) ∧
    cm_get ⟨[("regina_cache_foo", .entry ⟨"d", 0, "0.9", 300000⟩)], []⟩ "foo" 0
      = (some "d",
         ⟨[("regina_cache_foo", .entry ⟨"d", 0, "0.9", 300000⟩)], []⟩) :=
  ⟨(C4_unconfigured_default
      ⟨[("regina_cache_foo", .entry ⟨"d", 0, "0.9", 300000⟩)], []⟩
      "foo" "x" 5 0 ⟨"d", 0, "0.9", 300000⟩ (by decide)).1,
   (C4_unconfigured_default
      ⟨[("regina_cache_foo", .entry ⟨"d", 0, "0.9", 300000⟩)], []⟩
      "foo" "x" 5 0 ⟨"d", 0, "0.9", 300000⟩ (by decide)).2
     (by decide) (by decide)⟩

/-- C5: `get` is total — the Except-valued embedding of the whole
try/catch always yields `ok`; a missing entry yields `null` with the state
untouched; a corrupt entry makes the try-block throw, and the catch
handler deletes the entry and yields `null`, indistinguishable from
absence in the returned value. -/
theorem C5_get_never_throws (st : St) (k : String) (now : Int) :
    (∃ r, cm_getE st k now = Except.ok r) ∧
    (lookupKV st.storage (pfx ++ k) = none → cm_get st k now = (none, st)) ∧
    (∀ raw, lookupKV st.storage (pfx ++ k) = some (.corrupt raw) →
      cm_getBody st k now = Except.error () ∧
      cm_get st k now = (none, cm_invalidate st k)) := by
  refine ⟨?_, cm_get_of_lookup_none st k now,
    fun raw h => cm_get_of_lookup_corrupt st k raw now h⟩
  cases h : cm_getBody st k now with
  | ok r => exact ⟨r, by simp [cm_getE, h]⟩
  | error u => exact ⟨(none, cm_invalidate st k), by simp [cm_getE, h]⟩

/-- Witness for C5: `get` on an empty store misses with no state change;
`get` on a corrupt entry throws inside the try-block, deletes the entry
and returns `null`. -/
theorem C5_get_never_throws_witness :
    cm_get ⟨[], []⟩ "projects" 0 = (none, ⟨[], []⟩) ∧
    cm_getBody ⟨[("regina_cache_projects", .corrupt "oops")], []⟩ "projects" 0
      = Except.error () ∧
    cm_get ⟨[("regina_cache_projects", .corrupt "oops")], []⟩ "projects" 0
      = (none, cm_invalidate
          ⟨[("regina_cache_projects", .corrupt "oops")], []⟩ "projects") :=
  ⟨(C5_get_never_throws ⟨[], []⟩ "projects" 0).2.1 (by decide),
   ((C5_get_never_throws ⟨[("regina_cache_projects", .corrupt "oops")], []⟩
      "projects" 0).2.2 "oops" (by decide)).1,
   ((C5_get_never_throws ⟨[("regina_cache_projects", .corrupt "oops")], []⟩
      "projects" 0).2.2 "oops" (by decide)).2⟩

end Regina

namespace Regina

/-- C6: `shouldRefresh(k)` is true exactly when no readable entry is stored
under `k` (missing or corrupt) or the stored entry's age `now - timestamp`
exceeds half of the configured-or-default duration; in particular it is
true whenever nothing readable is stored. -/
theorem C6_shouldRefresh_iff (st : St) (k : String) (now : Int) :
    shouldRefresh st k now = true ↔
      (match lookupKV st.storage (pfx ++ k) with
       | some (.entry e) =>
           now - e.timestamp > (configOrDefault k).duration / 2
       | _ => True) := by
  cases h : lookupKV st.storage (pfx ++ k) with
  | none => simp [shouldRefresh, getAge, h]
  | some it =>
      cases it with
      | corrupt raw => simp [shouldRefresh, getAge, h]
      | entry e => simp [shouldRefresh, getAge, h]

/-- C7: the Except-valued embedding of the whole `set` try/catch always
yields `ok` — no storage write failure reaches the caller — and when the
underlying write throws, the resulting state is exactly that produced by
the `clearExpired()` remediation. -/
theorem C7_set_never_throws (writeOk : Bool) (st : St) (k v : String)
    (now : Int) :
    (∃ s, cm_setE writeOk st k v now = Except.ok s) ∧
    (writeOk = false →
      cm_setE writeOk st k v now = Except.ok (clearExpired st now)) := by
  cases writeOk with
  | false =>
      exact ⟨⟨clearExpired st now, by simp [cm_setE, cm_setBody]⟩,
        fun _ => by simp [cm_setE, cm_setBody]⟩
  | true =>
      refine ⟨⟨cm_set true st k v now, by simp [cm_set, cm_setE, cm_setBody]⟩,
        fun h => by cases h⟩

/-- Witness for C7: a failing write on an empty store completes with the
`clearExpired` state. -/
theorem C7_set_never_throws_witness :
    cm_setE false ⟨[], []⟩ "projects" "d" 0
      = Except.ok (clearExpired ⟨[], []⟩ 0) :=
  (C7_set_never_throws false ⟨[], []⟩ "projects" "d" 0).2 rfl

end Regina

namespace Regina

/-- C8: at mount the subscription handlers capture `isSaving = false`, and
the effect's dependency array omits `isSaving`, so `markSaveStart()` never
reaches the handler closures: while the live `isSaving` is `true`, a
`domains` change event and a comment-notification event each still arm
their 1000 ms reload timer and the reload fires — the save-suppression the
claim (and the handlers' own comment, "Skip updates during save
operations") describes does not occur. -/
theorem C8_stale_isSaving_reload :
    (Notif.rMarkSaveStart
      (Notif.setupSubscriptions ⟨false, false, [], []⟩)).isSaving = true ∧
    Notif.reloadCount
      (Notif.settle (Notif.toNC
        (Notif.rHandleDomainChange
          (Notif.rMarkSaveStart
            (Notif.setupSubscriptions ⟨false, false, [], []⟩)) 0)))
      Notif.Slice.domainExpiry = 1 ∧
    Notif.reloadCount
      (Notif.settle (Notif.toNC
        (Notif.rHandleCommentChange
          (Notif.rMarkSaveStart
            (Notif.setupSubscriptions ⟨false, false, [], []⟩))
          ⟨some "comment", none, "INSERT"⟩ 0)))
      Notif.Slice.commentNotifications = 1 := by decide

end Regina

namespace Regina

theorem lookup_double_remove (st : St) (a b s : String) :
    lookupKV (cm_invalidate (cm_invalidate st a) b).storage s
      = if s = pfx ++ a ∨ s = pfx ++ b then none
        else lookupKV st.storage s := by
  simp only [cm_invalidate]
  rw [lookupKV_removeKV, lookupKV_removeKV]
  by_cases h1 : s = pfx ++ a <;> by_cases h2 : s = pfx ++ b <;>
    simp [h1, h2]

/-- C9: the static routing of `invalidateOnDataChange`: table `projects`
removes exactly the `projects` and `dashboard` entries; table
`notifications` removes exactly the `notifications` and `domainExpiry`
entries; any table other than `domains`, `projects` and `notifications`
removes exactly the `projects` and `dashboard` entries; in each case every
other stored key — in particular any key outside the cache namespace — is
untouched, and no broadcast event is dispatched. -/
theorem C9_static_routing (st : St) (op tbl s : String) :
    (lookupKV (invalidateOnDataChange st "projects" op).storage s
      = if s = pfx ++ "projects" ∨ s = pfx ++ "dashboard" then none
        else lookupKV st.storage s) ∧
    (invalidateOnDataChange st "projects" op).events = st.events ∧
    (lookupKV (invalidateOnDataChange st "notifications" op).storage s
      = if s = pfx ++ "notifications" ∨ s = pfx ++ "domainExpiry" then none
        else lookupKV st.storage s) ∧
    (invalidateOnDataChange st "notifications" op).events = st.events ∧
    (tbl ≠ "domains" → tbl ≠ "projects" → tbl ≠ "notifications" →
      lookupKV (invalidateOnDataChange st tbl op).storage s
        = (if s = pfx ++ "projects" ∨ s = pfx ++ "dashboard" then none
           else lookupKV st.storage s) ∧
      (invalidateOnDataChange st tbl op).events = st.events) ∧
    ((∀ t, s ≠ pfx ++ t) →
      lookupKV (invalidateOnDataChange st "projects" op).storage s
        = lookupKV st.storage s ∧
      lookupKV (invalidateOnDataChange st "notifications" op).storage s
        = lookupKV st.storage s) := by
  have hp : invalidateOnDataChange st "projects" op
      = cm_invalidate (cm_invalidate st "projects") "dashboard" := by
    simp [invalidateOnDataChange]
  have hn : invalidateOnDataChange st "notifications" op
      = cm_invalidate (cm_invalidate st "notifications") "domainExpiry" := by
    simp [invalidateOnDataChange]
  refine ⟨?_, ?_, ?_, ?_, ?_, ?_⟩
  · rw [hp]; exact lookup_double_remove st "projects" "dashboard" s
  · rw [hp]; rfl
  · rw [hn]; exact lookup_double_remove st "notifications" "domainExpiry" s
  · rw [hn]; rfl
  · intro h1 h2 h3
    have hd : invalidateOnDataChange st tbl op
        = cm_invalidate (cm_invalidate st "projects") "dashboard" := by
      simp [invalidateOnDataChange, h1, h2, h3]
    rw [hd]
    exact ⟨lookup_double_remove st "projects" "dashboard" s, rfl⟩
  · intro hpre
    constructor
    · rw [hp, lookup_double_remove]
      simp [hpre "projects", hpre "dashboard"]
    · rw [hn, lookup_double_remove]
      simp [hpre "notifications", hpre "domainExpiry"]

/-- Witness for C9: a store holding only the unprefixed key `x` is left
unchanged by the `comments` (default), `projects` and `notifications`
routes. -/
theorem C9_static_routing_witness :
    lookupKV (invalidateOnDataChange ⟨[("x", .corrupt "r")], []⟩
        "comments" "op").storage "x" = some (.corrupt "r") ∧
    lookupKV (invalidateOnDataChange ⟨[("x", .corrupt "r")], []⟩
        "projects" "op").storage "x" = some (.corrupt "r") ∧
    lookupKV (invalidateOnDataChange ⟨[("x", .corrupt "r")], []⟩
        "notifications" "op").storage "x" = some (.corrupt "r") :=
  have hnp : ∀ t, ("x" : String) ≠ pfx ++ t := by
    intro t hh
    have hl := congrArg String.length hh
    rw [String.length_append] at hl
    have h1 : ("x" : String).length = 1 := rfl
    have h2 : pfx.length = 13 := rfl
    omega
  ⟨((C9_static_routing ⟨[("x", .corrupt "r")], []⟩ "op" "comments" "x"
      ).2.2.2.2.1 (by decide) (by decide) (by decide)).1,
   ((C9_static_routing ⟨[("x", .corrupt "r")], []⟩ "op" "comments" "x"
      ).2.2.2.2.2 hnp).1,
   ((C9_static_routing ⟨[("x", .corrupt "r")], []⟩ "op" "comments" "x"
      ).2.2.2.2.2 hnp).2⟩

/-- C10: when `markCommentAsRead` runs with a user present and the backend
update succeeds, the unread counter becomes `max(0, previous - 1)`
unconditionally — whether or not any element of the list matches the id —
and the comment list is unchanged as a value: the matching element is
replaced by `{ ...comment }`, a shallow copy equal to the original, and the
local `CommentNotification` type has no `is_read` field to update. -/
theorem C10_markCommentAsRead_local_state (st : Notif.NotifState)
    (cid : String) :
    (Notif.markCommentAsRead st cid true false).unreadCommentCount
      = max 0 (st.unreadCommentCount - 1) ∧
    (Notif.markCommentAsRead st cid true false).commentNotifications
      = st.commentNotifications ∧
    (∀ c : Notif.CommentNotification, Notif.shallowCopy c = c) := by
  refine ⟨rfl, ?_, fun c => rfl⟩
  simp [Notif.markCommentAsRead, Notif.shallowCopy_eq]

end Regina
